import Mathlib

/-!
Verification of the signature-construction and delegated-access (subaccount)
core of the oxen-api-implementaion repository.

The TypeScript sources embedded here:
- CryptoUtils (crypto module): canonical signing messages for each storage
  operation, subaccount token generation and signing;
- PostmanParamsGenerator (postman-params module): request-descriptor assembly.

Modelling conventions:
- A JS Uint8Array is a List Nat whose entries are bytes (each < 256); byte
  stores through an index assignment apply the JS ToUint8 conversion, written
  as % 256.
- JS numbers used as namespaces are integers here (Int); timestamps, ttl and
  expiries are Nat milliseconds. Template-literal rendering of an integer
  matches Int.toString / Nat.toString.
- Date.now() is modelled as an explicit timestamp argument.
- The external @stablelib/ed25519 and base64 primitives are abstract function
  parameters, bundled in EdPrimitives; hex encoding and decoding
  (@stablelib/hex) are concrete because token layout claims depend on them.
- TextEncoder().encode over the ASCII strings built here is the code-point
  byte list.
-/

/-- An Ed25519 key pair as held by CryptoUtils (field ed25519KeyPair). -/
structure KeyPair where
  publicKey : List Nat
  secretKey : List Nat
  deriving DecidableEq

/-- The external cryptographic primitives CryptoUtils calls: ed25519.sign,
base64.encode (also Buffer base64 in encodeData), convertPublicKeyToX25519,
and ed25519.generateKeyPairFromSeed. They are abstract parameters of the
embedding; every theorem quantifies over them. -/
structure EdPrimitives where
  sign : List Nat → List Nat → List Nat
  b64encode : List Nat → String
  toX25519 : List Nat → List Nat
  generateFromSeed : List Nat → KeyPair

/-- TextEncoder().encode of an ASCII string: the code points as bytes. -/
def utf8Encode (s : String) : List Nat :=
  s.data.map Char.toNat

/-- The namespace argument type number | string taken by signDeleteAll and
signExpireAll. -/
inductive NsArg where
  | num (n : Int)
  | str (s : String)
  deriving DecidableEq

/-- JS toString on a number | string namespace value. -/
def NsArg.toStr : NsArg → String
  | .num n => toString n
  | .str s => s

/-- Canonical message of signStore (crypto, line 54):
store dollar-namespace dollar-sigTimestamp with no omission of namespace 0. -/
def storeMessage (ns : Int) (sigTimestamp : Nat) : String :=
  "store" ++ toString ns ++ toString sigTimestamp

/-- Canonical message of signRetrieve (crypto, lines 63-64): the namespace is
rendered as the empty string when it equals 0. -/
def retrieveMessage (ns : Int) (timestamp : Nat) : String :=
  "retrieve" ++ (if ns = 0 then "" else toString ns) ++ toString timestamp

/-- Canonical message of signDelete (crypto, line 74). -/
def deleteMessage (messages : List String) : String :=
  "delete" ++ String.join messages

/-- Canonical message of signDeleteAll (crypto, lines 83-84): the strict
equality namespace === 0 only matches the number 0, never the string "0". -/
def deleteAllMessage (ns : NsArg) (timestamp : Nat) : String :=
  "delete_all" ++ (if ns = NsArg.num 0 then "" else ns.toStr) ++ toString timestamp

/-- Canonical message of signExpireAll (crypto, lines 93-94): the namespace is
rendered as the empty string when undefined or strictly equal to the number 0. -/
def expireAllMessage (ns : Option NsArg) (expiry : Nat) : String :=
  "expire_all" ++
    (if ns = none ∨ ns = some (NsArg.num 0) then ""
     else (ns.map NsArg.toStr).getD "") ++
    toString expiry

/-- Canonical message of signExpireMsgs (crypto, lines 104-111): shorten wins
over extend; an absent flag is falsy. -/
def expireMsgsMessage (messages : List String) (expiry : Nat)
    (shorten extend : Option Bool) : String :=
  let shortenOrExtend :=
    if shorten.getD false then "shorten"
    else if extend.getD false then "extend"
    else ""
  "expire" ++ shortenOrExtend ++ toString expiry ++ String.join messages

/-- Canonical message of getExpiriesParams (postman-params, line 835). -/
def getExpiriesMessage (timestamp : Nat) (messages : List String) : String :=
  "get_expiries" ++ toString timestamp ++ String.join messages

/-- Length of a string append is the sum of the lengths. -/
theorem string_append_length (a b : String) : (a ++ b).length = a.length + b.length :=
  String.length_append a b

/-- C1 counterexample. The claim says the canonical store message omits a zero
namespace, so at timestamp 1753933969153 it would be store1753933969153; the
code renders store01753933969153 instead. -/
theorem store_message_zero_namespace_not_omitted :
    storeMessage 0 1753933969153 = "store01753933969153" ∧
    storeMessage 0 1753933969153 ≠ "store1753933969153" := by
  refine ⟨rfl, fun h => ?_⟩
  have hlen : (19 : Nat) = 18 := congrArg String.length h
  exact absurd hlen (by decide)

/-- C1 (amended). For every timestamp T the canonical store message always
includes the decimal namespace, rendering namespace 0 as store0 followed by
decimal T — it never equals the omitted form store followed by decimal T —
and for a namespace n the message is store + decimal(n) + decimal(T). -/
theorem store_message_always_includes_namespace :
    (∀ (n : Int) (t : Nat), storeMessage n t = "store" ++ toString n ++ toString t) ∧
    (∀ t : Nat, storeMessage 0 t = "store" ++ "0" ++ toString t) ∧
    (∀ t : Nat, storeMessage 0 t ≠ "store" ++ toString t) := by
  refine ⟨fun n t => rfl, fun t => rfl, fun t h => ?_⟩
  have hlen := congrArg String.length h
  rw [storeMessage] at hlen
  simp only [string_append_length] at hlen
  have h0 : (toString (0 : Int)).length = 1 := rfl
  rw [h0] at hlen
  omega

/-- C4. For every timestamp the canonical retrieve, delete_all and expire_all
messages omit the namespace entirely when it is the number 0 (for expire_all,
also when it is unspecified), and render its decimal form between the
operation literal and the trailing decimal timestamp or expiry otherwise. -/
theorem namespace_omission_retrieve_deleteAll_expireAll :
    (∀ t : Nat, retrieveMessage 0 t = "retrieve" ++ toString t) ∧
    (∀ (n : Int) (t : Nat), n ≠ 0 →
      retrieveMessage n t = "retrieve" ++ toString n ++ toString t) ∧
    (∀ t : Nat, deleteAllMessage (NsArg.num 0) t = "delete_all" ++ toString t) ∧
    (∀ (n : Int) (t : Nat), n ≠ 0 →
      deleteAllMessage (NsArg.num n) t = "delete_all" ++ toString n ++ toString t) ∧
    (∀ e : Nat, expireAllMessage none e = "expire_all" ++ toString e) ∧
    (∀ e : Nat, expireAllMessage (some (NsArg.num 0)) e = "expire_all" ++ toString e) ∧
    (∀ (n : Int) (e : Nat), n ≠ 0 →
      expireAllMessage (some (NsArg.num n)) e = "expire_all" ++ toString n ++ toString e) := by
  refine ⟨fun t => rfl, fun n t hn => ?_, fun t => rfl, fun n t hn => ?_,
    fun e => rfl, fun e => rfl, fun n e hn => ?_⟩
  · rw [retrieveMessage, if_neg hn]
  · rw [deleteAllMessage, if_neg (by simpa using hn)]
    rfl
  · rw [expireAllMessage, if_neg (by simp [hn])]
    rfl

/-- C4 witness: the namespace omission and inclusion rules evaluated at the
concrete namespaces 0 and 42 with timestamp 7. -/
theorem namespace_omission_retrieve_deleteAll_expireAll_witness :
    retrieveMessage 0 7 = "retrieve" ++ toString (7 : Nat) ∧
    retrieveMessage 42 7 = "retrieve" ++ toString (42 : Int) ++ toString (7 : Nat) ∧
    deleteAllMessage (NsArg.num 0) 7 = "delete_all" ++ toString (7 : Nat) ∧
    deleteAllMessage (NsArg.num 42) 7 = "delete_all" ++ toString (42 : Int) ++ toString (7 : Nat) ∧
    expireAllMessage none 7 = "expire_all" ++ toString (7 : Nat) ∧
    expireAllMessage (some (NsArg.num 0)) 7 = "expire_all" ++ toString (7 : Nat) ∧
    expireAllMessage (some (NsArg.num 42)) 7
      = "expire_all" ++ toString (42 : Int) ++ toString (7 : Nat) :=
  ⟨namespace_omission_retrieve_deleteAll_expireAll.1 7,
   namespace_omission_retrieve_deleteAll_expireAll.2.1 42 7 (by decide),
   namespace_omission_retrieve_deleteAll_expireAll.2.2.1 7,
   namespace_omission_retrieve_deleteAll_expireAll.2.2.2.1 42 7 (by decide),
   namespace_omission_retrieve_deleteAll_expireAll.2.2.2.2.1 7,
   namespace_omission_retrieve_deleteAll_expireAll.2.2.2.2.2.1 7,
   namespace_omission_retrieve_deleteAll_expireAll.2.2.2.2.2.2 42 7 (by decide)⟩

/-- C5. The canonical expire_msgs message is expire, then the literal shorten
when the shorten flag is truthy, extend when only the extend flag is truthy,
and nothing when both are false or absent, then the decimal expiry, then the
message hashes concatenated with no delimiter in caller-supplied order. -/
theorem expire_msgs_message_format :
    (∀ (msgs : List String) (e : Nat) (sh ex : Option Bool), sh.getD false = true →
      expireMsgsMessage msgs e sh ex = "expire" ++ "shorten" ++ toString e ++ String.join msgs) ∧
    (∀ (msgs : List String) (e : Nat) (sh ex : Option Bool),
      sh.getD false = false → ex.getD false = true →
      expireMsgsMessage msgs e sh ex = "expire" ++ "extend" ++ toString e ++ String.join msgs) ∧
    (∀ (msgs : List String) (e : Nat) (sh ex : Option Bool),
      sh.getD false = false → ex.getD false = false →
      expireMsgsMessage msgs e sh ex = "expire" ++ "" ++ toString e ++ String.join msgs) := by
  refine ⟨fun msgs e sh ex hsh => ?_, fun msgs e sh ex hsh hex => ?_,
    fun msgs e sh ex hsh hex => ?_⟩
  · simp [expireMsgsMessage, hsh]
  · simp [expireMsgsMessage, hsh, hex]
  · simp [expireMsgsMessage, hsh, hex]

/-- C5 witness: the three literal cases evaluated on two concrete hashes with
expiry 9, covering both-flags-given, extend-only, and both-absent inputs. -/
theorem expire_msgs_message_format_witness :
    expireMsgsMessage ["h1", "h2"] 9 (some true) (some true)
      = "expire" ++ "shorten" ++ toString (9 : Nat) ++ String.join ["h1", "h2"] ∧
    expireMsgsMessage ["h1", "h2"] 9 (some false) (some true)
      = "expire" ++ "extend" ++ toString (9 : Nat) ++ String.join ["h1", "h2"] ∧
    expireMsgsMessage ["h1", "h2"] 9 none none
      = "expire" ++ "" ++ toString (9 : Nat) ++ String.join ["h1", "h2"] :=
  ⟨expire_msgs_message_format.1 ["h1", "h2"] 9 (some true) (some true) rfl,
   expire_msgs_message_format.2.1 ["h1", "h2"] 9 (some false) (some true) rfl rfl,
   expire_msgs_message_format.2.2 ["h1", "h2"] 9 none none rfl rfl⟩

/-- Hex digit characters of @stablelib/hex encode (uppercase output). -/
def hexChars : List Char :=
  ['0', '1', '2', '3', '4', '5', '6', '7', '8', '9', 'A', 'B', 'C', 'D', 'E', 'F']

/-- The two uppercase hex characters of one byte. -/
def byteToHex (b : Nat) : List Char :=
  [hexChars.getD (b / 16 % 16) '0', hexChars.getD (b % 16) '0']

/-- Uppercase hex encoding of a byte list (hex.encode of @stablelib/hex). -/
def hexEncode (bs : List Nat) : String :=
  String.mk ((bs.map byteToHex).flatten)

/-- Numeric value of one hex character by code point, both cases accepted;
none models the throw of hex.decode on a non-hex character. -/
def hexVal (c : Char) : Option Nat :=
  if 48 ≤ c.toNat ∧ c.toNat ≤ 57 then some (c.toNat - 48)
  else if 65 ≤ c.toNat ∧ c.toNat ≤ 70 then some (c.toNat - 55)
  else if 97 ≤ c.toNat ∧ c.toNat ≤ 102 then some (c.toNat - 87)
  else none

/-- Character-list worker of hexDecode; an odd-length input is rejected, as
is any character outside the hex digit ranges. -/
def hexDecodeChars : List Char → Option (List Nat)
  | [] => some []
  | [_] => none
  | c1 :: c2 :: rest =>
    (hexVal c1).bind fun hi =>
      (hexVal c2).bind fun lo =>
        (hexDecodeChars rest).map fun bs => (16 * hi + lo) :: bs

/-- hex.decode of @stablelib/hex as a total function: none models a throw. -/
def hexDecode (s : String) : Option (List Nat) :=
  hexDecodeChars s.data

/-- A hex encoding has two characters per byte. -/
theorem hexEncode_length (bs : List Nat) : (hexEncode bs).length = 2 * bs.length := by
  induction bs with
  | nil => rfl
  | cons b rest ih =>
    simp only [hexEncode, String.length, List.map_cons, List.flatten, byteToHex] at ih ⊢
    simp at ih ⊢
    omega

/-- Reading back a hex digit character recovers the value below 16 it names. -/
theorem hexVal_hexChars_getD : ∀ d : Fin 16, hexVal (hexChars.getD d.val '0') = some d.val := by
  decide

/-- A successful hexVal result is below 16. -/
theorem hexVal_lt (c : Char) (v : Nat) (h : hexVal c = some v) : v < 16 := by
  simp only [hexVal] at h
  split_ifs at h with h1 h2 h3 <;> cases h <;> omega

/-- Decoding inverts encoding on byte lists. -/
theorem hexDecode_hexEncode (bs : List Nat) (h : ∀ b ∈ bs, b < 256) :
    hexDecode (hexEncode bs) = some bs := by
  induction bs with
  | nil => rfl
  | cons b rest ih =>
    have hb : b < 256 := h b (List.mem_cons_self b rest)
    have hhi : b / 16 < 16 := by omega
    have hrest := ih (fun x hx => h x (List.mem_cons_of_mem b hx))
    have h1 := hexVal_hexChars_getD ⟨b / 16, hhi⟩
    have h2 := hexVal_hexChars_getD ⟨b % 16, Nat.mod_lt b (by omega)⟩
    simp only [hexDecode, hexEncode, List.map_cons, List.flatten_cons, byteToHex] at hrest ⊢
    have hmod : b / 16 % 16 = b / 16 := Nat.mod_eq_of_lt hhi
    simp only [List.cons_append, List.nil_append, hexDecodeChars, hmod]
    rw [h1, h2]
    have hdm : 16 * (b / 16) + b % 16 = b := by omega
    simp [hrest, hdm]

/-- Every byte a successful decode yields is below 256. -/
theorem hexDecodeChars_bytes_lt : ∀ (l : List Char) (bs : List Nat),
    hexDecodeChars l = some bs → ∀ b ∈ bs, b < 256
  | [], bs, h, b, hb => by
    simp only [hexDecodeChars, Option.some.injEq] at h
    subst h
    exact absurd hb (List.not_mem_nil b)
  | [c], bs, h, b, hb => by
    simp [hexDecodeChars] at h
  | c1 :: c2 :: rest, bs, h, b, hb => by
    simp only [hexDecodeChars, Option.bind_eq_some, Option.map_eq_some'] at h
    obtain ⟨hi, h1, lo, h2, tl, h3, hbs⟩ := h
    subst hbs
    rcases List.mem_cons.mp hb with hb | hb
    · have hhi := hexVal_lt c1 hi h1
      have hlo := hexVal_lt c2 lo h2
      omega
    · exact hexDecodeChars_bytes_lt rest tl h3 b hb

/-- Every byte hexDecode yields is below 256. -/
theorem hexDecode_bytes_lt (s : String) (bs : List Nat)
    (h : hexDecode s = some bs) : ∀ b ∈ bs, b < 256 :=
  hexDecodeChars_bytes_lt s.data bs h

/-- generateBlindedSubaccountToken (crypto, lines 215-234). The token is a
36-byte Uint8Array initialised to zero: one network-tag byte, one permissions
byte (both stored through index assignment, hence % 256), two reserved zero
bytes, then the target public key copied at offset 4 by Uint8Array.set.
Uint8Array.set throws a RangeError (modelled as none) when the source runs
past the end, i.e. when the target key exceeds 32 bytes; a shorter source
leaves the trailing zero initialisation in place. Source defaults:
permissions 1, netPfx 5. The returned pair is the hex token string together
with the blindedPubkey field, which is the target key unchanged. -/
def generateBlindedSubaccountToken (targetPubkey : List Nat)
    (permissions netPfx : Nat) : Option (String × List Nat) :=
  if targetPubkey.length ≤ 32 then
    some (hexEncode ([netPfx % 256, permissions % 256, 0, 0] ++ targetPubkey ++
      List.replicate (32 - targetPubkey.length) 0), targetPubkey)
  else none

/-- C2. For every network-tag byte, every permissions byte and every 32-byte
target public key, the encoded subaccount token is the hex form of exactly 36
bytes (72 hex characters) laid out as the tag byte, the permissions byte, two
zero reserved bytes, then the 32-byte target key; bytes 4 through 35 equal
the target key and bytes 2 and 3 are zero. -/
theorem subaccount_token_layout (netPfx permissions : Nat) (target : List Nat)
    (hp : netPfx < 256) (hm : permissions < 256) (hl : target.length = 32) :
    generateBlindedSubaccountToken target permissions netPfx
      = some (hexEncode ([netPfx, permissions, 0, 0] ++ target), target) ∧
    ([netPfx, permissions, 0, 0] ++ target).length = 36 ∧
    (hexEncode ([netPfx, permissions, 0, 0] ++ target)).length = 72 ∧
    ([netPfx, permissions, 0, 0] ++ target).drop 4 = target ∧
    ([netPfx, permissions, 0, 0] ++ target)[2]? = some 0 ∧
    ([netPfx, permissions, 0, 0] ++ target)[3]? = some 0 := by
  refine ⟨?_, by simp [hl], by rw [hexEncode_length]; simp [hl], by simp, by simp, by simp⟩
  rw [generateBlindedSubaccountToken, if_pos (by omega), hl,
    Nat.mod_eq_of_lt hp, Nat.mod_eq_of_lt hm]
  simp

/-- C2 witness: the layout theorem applied to the tag byte 0, permissions 1
and the concrete 32-byte key of value-2 bytes. -/
theorem subaccount_token_layout_witness :
    generateBlindedSubaccountToken (List.replicate 32 2) 1 0
      = some (hexEncode ([0, 1, 0, 0] ++ List.replicate 32 2), List.replicate 32 2) ∧
    ([0, 1, 0, 0] ++ List.replicate 32 2).length = 36 ∧
    (hexEncode ([0, 1, 0, 0] ++ List.replicate 32 2)).length = 72 ∧
    ([0, 1, 0, 0] ++ List.replicate 32 2).drop 4 = List.replicate 32 2 ∧
    ([0, 1, 0, 0] ++ List.replicate 32 2)[2]? = some 0 ∧
    ([0, 1, 0, 0] ++ List.replicate 32 2)[3]? = some 0 :=
  subaccount_token_layout 0 1 (List.replicate 32 2) (by decide) (by decide) (by decide)

/-- C7 counterexample. A 31-byte target key is not rejected: the encoder
silently emits a token whose last key byte is the leftover zero initialiser,
contradicting the claim that every non-32-byte key fails with an error. -/
theorem subaccount_token_short_key_not_rejected :
    generateBlindedSubaccountToken (List.replicate 31 5) 1 0
      = some (hexEncode ([0, 1, 0, 0] ++ List.replicate 31 5 ++ [0]),
          List.replicate 31 5) := by
  decide

/-- C7 (amended). Token encoding fails — with a RangeError raised by
Uint8Array.set, not a dedicated InvalidKeyLength error — exactly when the
target key is longer than 32 bytes; any key of at most 32 bytes silently
yields a 72-hex-character token padded with the zero initialisation. -/
theorem subaccount_token_length_check (target : List Nat) (permissions netPfx : Nat) :
    (generateBlindedSubaccountToken target permissions netPfx = none ↔ 32 < target.length) ∧
    (target.length ≤ 32 →
      generateBlindedSubaccountToken target permissions netPfx
        = some (hexEncode ([netPfx % 256, permissions % 256, 0, 0] ++ target ++
            List.replicate (32 - target.length) 0), target) ∧
      (hexEncode ([netPfx % 256, permissions % 256, 0, 0] ++ target ++
        List.replicate (32 - target.length) 0)).length = 72) := by
  constructor
  · rw [generateBlindedSubaccountToken]
    split <;> rename_i h <;> simp <;> omega
  · intro h
    refine ⟨by rw [generateBlindedSubaccountToken, if_pos h], ?_⟩
    rw [hexEncode_length]
    simp
    omega

/-- C7 witness: the length dichotomy applied to the empty target key. -/
theorem subaccount_token_length_check_witness :
    (generateBlindedSubaccountToken [] 0 0 = none ↔ 32 < ([] : List Nat).length) ∧
    (generateBlindedSubaccountToken [] 0 0
      = some (hexEncode ([0 % 256, 0 % 256, 0, 0] ++ [] ++ List.replicate (32 - 0) 0), []) ∧
      (hexEncode ([0 % 256, 0 % 256, 0, 0] ++ [] ++ List.replicate (32 - 0) 0)).length = 72) :=
  ⟨(subaccount_token_length_check [] 0 0).1,
   (subaccount_token_length_check [] 0 0).2 (by decide)⟩

/-- signStore (crypto, lines 53-57): Ed25519 over the store message, base64. -/
def signStore (P : EdPrimitives) (kp : KeyPair) (ns : Int) (sigTimestamp : Nat) : String :=
  P.b64encode (P.sign kp.secretKey (utf8Encode (storeMessage ns sigTimestamp)))

/-- signRetrieve (crypto, lines 62-68). -/
def signRetrieve (P : EdPrimitives) (kp : KeyPair) (ns : Int) (timestamp : Nat) : String :=
  P.b64encode (P.sign kp.secretKey (utf8Encode (retrieveMessage ns timestamp)))

/-- signDelete (crypto, lines 73-77). -/
def signDelete (P : EdPrimitives) (kp : KeyPair) (messages : List String) : String :=
  P.b64encode (P.sign kp.secretKey (utf8Encode (deleteMessage messages)))

/-- signDeleteAll (crypto, lines 82-87). -/
def signDeleteAll (P : EdPrimitives) (kp : KeyPair) (ns : NsArg) (timestamp : Nat) : String :=
  P.b64encode (P.sign kp.secretKey (utf8Encode (deleteAllMessage ns timestamp)))

/-- signExpireAll (crypto, lines 92-97). -/
def signExpireAll (P : EdPrimitives) (kp : KeyPair) (ns : Option NsArg) (expiry : Nat) : String :=
  P.b64encode (P.sign kp.secretKey (utf8Encode (expireAllMessage ns expiry)))

/-- signExpireMsgs (crypto, lines 102-114). -/
def signExpireMsgs (P : EdPrimitives) (kp : KeyPair) (messages : List String)
    (expiry : Nat) (shorten extend : Option Bool) : String :=
  P.b64encode (P.sign kp.secretKey (utf8Encode (expireMsgsMessage messages expiry shorten extend)))

/-- signMessage (crypto, lines 181-184): Ed25519 over an arbitrary string. -/
def signMessage (P : EdPrimitives) (kp : KeyPair) (message : String) : String :=
  P.b64encode (P.sign kp.secretKey (utf8Encode message))

/-- signSubaccountToken (crypto, lines 239-243): the owner signs the raw
decoded token bytes, not their hex spelling; none models the hex.decode
throw on a malformed token string. -/
def signSubaccountToken (P : EdPrimitives) (kp : KeyPair) (subaccountToken : String) :
    Option String :=
  (hexDecode subaccountToken).map fun tokenBytes =>
    P.b64encode (P.sign kp.secretKey tokenBytes)

/-- getPublicKeyHex (crypto, lines 24-26). -/
def getPublicKeyHex (kp : KeyPair) : String :=
  hexEncode kp.publicKey

/-- getX25519PublicKeyHex (crypto, lines 31-34). -/
def getX25519PublicKeyHex (P : EdPrimitives) (kp : KeyPair) : String :=
  hexEncode (P.toX25519 kp.publicKey)

/-- getPublicKey (postman-params, lines 516-519): 00 then the Ed25519 hex. -/
def getPublicKey (kp : KeyPair) : String :=
  "00" ++ getPublicKeyHex kp

/-- getPublicKeyNoPrefix of the source (postman-params, lines 543-545). -/
def getPublicKeyNoPfx (kp : KeyPair) : String :=
  getPublicKeyHex kp

/-- getX25519PublicKeyNoPrefix of the source (postman-params, lines 551-553). -/
def getX25519PublicKeyNoPfx (P : EdPrimitives) (kp : KeyPair) : String :=
  getX25519PublicKeyHex P kp

/-- encodeData (postman-params, lines 574-576): base64 of the UTF-8 bytes. -/
def encodeData (P : EdPrimitives) (data : String) : String :=
  P.b64encode (utf8Encode data)

/-- The method-params envelope every generator method returns. -/
structure ApiRequest (α : Type) where
  method : String
  params : α
  deriving DecidableEq

/-- StoreParams (types module); the namespace field is called ns here because
namespace is a reserved word in Lean. Optional JSON fields are Options. -/
structure StoreParams where
  pubkey : String
  timestamp : Nat
  ttl : Nat
  data : String
  ns : Int
  signature : Option String
  pubkey_ed25519 : Option String
  subaccount : Option String
  subaccount_sig : Option String
  deriving DecidableEq

/-- RetrieveParams (types module); ns stands for the namespace field. -/
structure RetrieveParams where
  pubkey : String
  ns : Int
  last_hash : Option String
  max_count : Int
  max_size : Int
  timestamp : Nat
  signature : Option String
  pubkey_ed25519 : Option String
  subaccount : Option String
  subaccount_sig : Option String
  deriving DecidableEq

/-- DeleteParams (types module). -/
structure DeleteParams where
  pubkey : String
  messages : List String
  required : Bool
  signature : String
  pubkey_ed25519 : Option String
  subaccount : Option String
  subaccount_sig : Option String
  deriving DecidableEq

/-- DeleteAllParams (types module); ns stands for the namespace field. -/
structure DeleteAllParams where
  pubkey : String
  ns : Int
  timestamp : Nat
  signature : String
  pubkey_ed25519 : Option String
  deriving DecidableEq

/-- GetExpiriesParams (postman-params interface). -/
structure GetExpiriesParams where
  pubkey : String
  messages : List String
  timestamp : Nat
  signature : String
  pubkey_ed25519 : Option String
  deriving DecidableEq

/-- SwarmParams: get_swarm carries only the pubkey. -/
structure SwarmParams where
  pubkey : String
  deriving DecidableEq

/-- GetStatsParams: an empty parameter object. -/
structure GetStatsParams where
  deriving DecidableEq

/-- getStoreParams (postman-params, lines 582-608). Date.now() is the ts
argument. Source defaults: data "Hello World!", ttl 86400000, namespace 0.
The signature is left undefined exactly when the namespace is -10. -/
def getStoreParams (P : EdPrimitives) (kp : KeyPair) (isSessionId : Bool) (ts : Nat)
    (data : String) (ttl : Nat) (ns : Int) : ApiRequest StoreParams :=
  { method := "store"
  , params :=
    { pubkey := if isSessionId then "05" ++ getX25519PublicKeyNoPfx P kp else getPublicKey kp
    , timestamp := ts
    , ttl := ttl
    , data := encodeData P data
    , ns := ns
    , signature := if ns = -10 then none else some (signStore P kp ns ts)
    , pubkey_ed25519 := if isSessionId then some (getPublicKeyNoPfx kp) else none
    , subaccount := none
    , subaccount_sig := none } }

/-- getRetrieveParams (postman-params, lines 647-673). Source defaults:
namespace 0, maxCount 100, maxSize -5. -/
def getRetrieveParams (P : EdPrimitives) (kp : KeyPair) (isSessionId : Bool) (ts : Nat)
    (lastHash : Option String) (ns : Int) (maxCount maxSize : Int) :
    ApiRequest RetrieveParams :=
  { method := "retrieve"
  , params :=
    { pubkey := if isSessionId then "05" ++ getX25519PublicKeyNoPfx P kp else getPublicKey kp
    , ns := ns
    , last_hash := lastHash
    , max_count := maxCount
    , max_size := maxSize
    , timestamp := ts
    , signature := if ns = -10 then none else some (signRetrieve P kp ns ts)
    , pubkey_ed25519 := if isSessionId then some (getPublicKeyNoPfx kp) else none
    , subaccount := none
    , subaccount_sig := none } }

/-- getDeleteParams (postman-params, lines 712-730). Source defaults:
messages test_hash_1, test_hash_2; required true. -/
def getDeleteParams (P : EdPrimitives) (kp : KeyPair) (isSessionId : Bool)
    (messages : List String) (required : Bool) : ApiRequest DeleteParams :=
  { method := "delete"
  , params :=
    { pubkey := if isSessionId then "05" ++ getX25519PublicKeyNoPfx P kp else getPublicKey kp
    , messages := messages
    , required := required
    , signature := signDelete P kp messages
    , pubkey_ed25519 := if isSessionId then some (getPublicKeyNoPfx kp) else none
    , subaccount := none
    , subaccount_sig := none } }

/-- getDeleteAllParams (postman-params, lines 736-755). Source default:
namespace 0. The namespace is passed as a number to signDeleteAll. -/
def getDeleteAllParams (P : EdPrimitives) (kp : KeyPair) (isSessionId : Bool) (ts : Nat)
    (ns : Int) : ApiRequest DeleteAllParams :=
  { method := "delete_all"
  , params :=
    { pubkey := if isSessionId then "05" ++ getX25519PublicKeyNoPfx P kp else getPublicKey kp
    , ns := ns
    , timestamp := ts
    , signature := signDeleteAll P kp (NsArg.num ns) ts
    , pubkey_ed25519 := if isSessionId then some (getPublicKeyNoPfx kp) else none } }

/-- getSwarmParams (postman-params, lines 788-800): pubkey only, and always
the 00-tagged key regardless of Session ID mode. -/
def getSwarmParams (kp : KeyPair) : ApiRequest SwarmParams :=
  { method := "get_swarm", params := { pubkey := getPublicKey kp } }

/-- getExpiriesParams (postman-params, lines 830-850). Source default:
messages test_hash_1. -/
def getExpiriesParams (P : EdPrimitives) (kp : KeyPair) (isSessionId : Bool) (ts : Nat)
    (messages : List String) : ApiRequest GetExpiriesParams :=
  { method := "get_expiries"
  , params :=
    { pubkey := if isSessionId then "05" ++ getX25519PublicKeyNoPfx P kp else getPublicKey kp
    , messages := messages
    , timestamp := ts
    , signature := signMessage P kp (getExpiriesMessage ts messages)
    , pubkey_ed25519 := if isSessionId then some (getPublicKeyNoPfx kp) else none } }

/-- getStatsParams (postman-params, lines 1047-1054). -/
def getStatsParams : ApiRequest GetStatsParams :=
  { method := "get_stats", params := {} }

/-- Concrete stand-ins for the external primitives, used only to evaluate
witnesses on closed inputs: sign concatenates key and message, base64 is
replaced by hex, the X25519 conversion by the identity, and seed expansion
duplicates the seed. -/
def testPrimitives : EdPrimitives :=
  { sign := fun k m => k ++ m
  , b64encode := fun bs => hexEncode bs
  , toX25519 := fun k => k
  , generateFromSeed := fun s => { publicKey := s, secretKey := s } }

/-- A concrete key pair for witnesses. -/
def testKeyPair : KeyPair :=
  { publicKey := List.replicate 32 1, secretKey := List.replicate 64 3 }

/-- A second concrete key pair, standing in for a delegate. -/
def testDelegatePair : KeyPair :=
  { publicKey := List.replicate 32 4, secretKey := List.replicate 64 6 }

/-- C9. In both modes the pubkey of an assembled store or retrieve
descriptor is a one-byte network tag then a 32-byte key: 00 plus the Ed25519
key in regular mode, 05 plus the X25519 key in Session-ID mode, and in
either case exactly 66 hex characters. -/
theorem descriptor_pubkey_layout_66_hex (P : EdPrimitives) (kp : KeyPair) (sid : Bool)
    (ts : Nat) (data : String) (ttl : Nat) (nsStore nsRet : Int) (lastHash : Option String)
    (maxCount maxSize : Int)
    (hpk : kp.publicKey.length = 32) (hx : (P.toX25519 kp.publicKey).length = 32) :
    ((getStoreParams P kp sid ts data ttl nsStore).params.pubkey
      = if sid then "05" ++ hexEncode (P.toX25519 kp.publicKey)
        else "00" ++ hexEncode kp.publicKey) ∧
    (getStoreParams P kp sid ts data ttl nsStore).params.pubkey.length = 66 ∧
    ((getRetrieveParams P kp sid ts lastHash nsRet maxCount maxSize).params.pubkey
      = if sid then "05" ++ hexEncode (P.toX25519 kp.publicKey)
        else "00" ++ hexEncode kp.publicKey) ∧
    (getRetrieveParams P kp sid ts lastHash nsRet maxCount maxSize).params.pubkey.length = 66 := by
  have h05 : ("05" ++ hexEncode (P.toX25519 kp.publicKey)).length = 66 := by
    rw [string_append_length, hexEncode_length, hx]
    rfl
  have h00 : ("00" ++ hexEncode kp.publicKey).length = 66 := by
    rw [string_append_length, hexEncode_length, hpk]
    rfl
  cases sid <;>
    simp [getStoreParams, getRetrieveParams, getPublicKey, getPublicKeyHex,
      getX25519PublicKeyNoPfx, getX25519PublicKeyHex, h05, h00]

/-- C9 witness: the pubkey layout evaluated in Session-ID mode on the
concrete test key pair, whose X25519 stand-in conversion is the identity. -/
theorem descriptor_pubkey_layout_66_hex_witness :
    ((getStoreParams testPrimitives testKeyPair true 7 "d" 1 0).params.pubkey
      = if true then "05" ++ hexEncode (testPrimitives.toX25519 testKeyPair.publicKey)
        else "00" ++ hexEncode testKeyPair.publicKey) ∧
    (getStoreParams testPrimitives testKeyPair true 7 "d" 1 0).params.pubkey.length = 66 ∧
    ((getRetrieveParams testPrimitives testKeyPair true 7 none 0 100 (-5)).params.pubkey
      = if true then "05" ++ hexEncode (testPrimitives.toX25519 testKeyPair.publicKey)
        else "00" ++ hexEncode testKeyPair.publicKey) ∧
    (getRetrieveParams testPrimitives testKeyPair true 7 none 0 100 (-5)).params.pubkey.length
      = 66 :=
  descriptor_pubkey_layout_66_hex testPrimitives testKeyPair true 7 "d" 1 0 0 none 100 (-5)
    (by decide) (by decide)

/-- C10. For the store and retrieve builders the signature field is absent
exactly when the namespace argument is -10 and present (as the corresponding
canonical-message signature) for every other namespace; each other field of
the descriptor is given by an expression making no reference to the -10
carve-out. -/
theorem signature_absent_only_at_minus10 (P : EdPrimitives) (kp : KeyPair) (sid : Bool)
    (ts : Nat) (data : String) (ttl : Nat) (ns : Int) (lastHash : Option String)
    (maxCount maxSize : Int) :
    ((getStoreParams P kp sid ts data ttl ns).params.signature = none ↔ ns = -10) ∧
    (ns ≠ -10 →
      (getStoreParams P kp sid ts data ttl ns).params.signature
        = some (signStore P kp ns ts)) ∧
    (getStoreParams P kp sid ts data ttl ns).params.pubkey
      = (if sid then "05" ++ getX25519PublicKeyNoPfx P kp else getPublicKey kp) ∧
    (getStoreParams P kp sid ts data ttl ns).params.timestamp = ts ∧
    (getStoreParams P kp sid ts data ttl ns).params.ttl = ttl ∧
    (getStoreParams P kp sid ts data ttl ns).params.data = encodeData P data ∧
    (getStoreParams P kp sid ts data ttl ns).params.ns = ns ∧
    (getStoreParams P kp sid ts data ttl ns).params.pubkey_ed25519
      = (if sid then some (getPublicKeyNoPfx kp) else none) ∧
    ((getRetrieveParams P kp sid ts lastHash ns maxCount maxSize).params.signature = none
      ↔ ns = -10) ∧
    (ns ≠ -10 →
      (getRetrieveParams P kp sid ts lastHash ns maxCount maxSize).params.signature
        = some (signRetrieve P kp ns ts)) ∧
    (getRetrieveParams P kp sid ts lastHash ns maxCount maxSize).params.last_hash = lastHash ∧
    (getRetrieveParams P kp sid ts lastHash ns maxCount maxSize).params.max_count = maxCount ∧
    (getRetrieveParams P kp sid ts lastHash ns maxCount maxSize).params.max_size = maxSize := by
  refine ⟨?_, fun h => by simp [getStoreParams, h], rfl, rfl, rfl, rfl, rfl, rfl,
    ?_, fun h => by simp [getRetrieveParams, h], rfl, rfl, rfl⟩
  · simp only [getStoreParams]
    split <;> rename_i h <;> simp [h]
  · simp only [getRetrieveParams]
    split <;> rename_i h <;> simp [h]

/-- C10 witness: at the concrete namespace 3 both builders carry a
signature, and at -10 the store builder carries none. -/
theorem signature_absent_only_at_minus10_witness :
    (getStoreParams testPrimitives testKeyPair false 7 "d" 1 3).params.signature
      = some (signStore testPrimitives testKeyPair 3 7) ∧
    (getRetrieveParams testPrimitives testKeyPair false 7 none 3 100 (-5)).params.signature
      = some (signRetrieve testPrimitives testKeyPair 3 7) ∧
    ((getStoreParams testPrimitives testKeyPair false 7 "d" 1 (-10)).params.signature
      = none ↔ (-10 : Int) = -10) :=
  ⟨(signature_absent_only_at_minus10 testPrimitives testKeyPair false 7 "d" 1 3 none
      100 (-5)).2.1 (by decide),
   (signature_absent_only_at_minus10 testPrimitives testKeyPair false 7 "d" 1 3 none
      100 (-5)).2.2.2.2.2.2.2.2.2.1 (by decide),
   (signature_absent_only_at_minus10 testPrimitives testKeyPair false 7 "d" 1 (-10) none
      100 (-5)).1⟩

/-- The CryptoUtils constructor (crypto, lines 11-19), with the ambient
randomness the seedless branch consumes made explicit: a seeded construction
calls ed25519.generateKeyPairFromSeed on the seed alone, while the seedless
branch draws a random key pair (ed25519.generateKeyPair), modelled as
genRandom applied to an entropy stream. -/
def constructCryptoUtils (P : EdPrimitives) (genRandom : List Nat → KeyPair)
    (seed : Option (List Nat)) (entropy : List Nat) : KeyPair :=
  match seed with
  | some s => P.generateFromSeed s
  | none => genRandom entropy

/-- C6. Key generation and signing are deterministic: a construction from a
32-byte seed ignores the ambient entropy, so two such constructions
coincide, and signMessage is a pure function of the key pair and message
(ed25519.sign takes no randomness), so two calls with the same key and
message return the same signature. -/
theorem keygen_and_signing_deterministic (P : EdPrimitives) (genRandom : List Nat → KeyPair)
    (s e1 e2 : List Nat) (kp kp2 : KeyPair) (m m2 : String)
    (_hs : s.length = 32) (hkp : kp = kp2) (hm : m = m2) :
    constructCryptoUtils P genRandom (some s) e1 = constructCryptoUtils P genRandom (some s) e2 ∧
    signMessage P kp m = signMessage P kp2 m2 :=
  ⟨rfl, by rw [hkp, hm]⟩

/-- C6 witness: determinism evaluated on the all-zero 32-byte seed under two
distinct entropy streams, and on one concrete key and message. -/
theorem keygen_and_signing_deterministic_witness :
    constructCryptoUtils testPrimitives (fun e => { publicKey := e, secretKey := e })
        (some (List.replicate 32 0)) [1]
      = constructCryptoUtils testPrimitives (fun e => { publicKey := e, secretKey := e })
        (some (List.replicate 32 0)) [2] ∧
    signMessage testPrimitives testKeyPair "m" = signMessage testPrimitives testKeyPair "m" :=
  keygen_and_signing_deterministic testPrimitives
    (fun e => { publicKey := e, secretKey := e })
    (List.replicate 32 0) [1] [2] testKeyPair testKeyPair "m" "m" (by decide) rfl rfl

/-- The params value generateRequestBody dispatches to: each recognized
method wraps the corresponding generator result (the source stores that
whole method-params envelope in the params slot), and an unrecognized
method yields the supplied custom params, or the empty object literal when
none were supplied. -/
inductive DispatchedParams (α : Type) where
  | storeReq (r : ApiRequest StoreParams)
  | retrieveReq (r : ApiRequest RetrieveParams)
  | deleteReq (r : ApiRequest DeleteParams)
  | deleteAllReq (r : ApiRequest DeleteAllParams)
  | swarmReq (r : ApiRequest SwarmParams)
  | expiriesReq (r : ApiRequest GetExpiriesParams)
  | statsReq (r : ApiRequest GetStatsParams)
  | customObj (p : α)
  | emptyObj
  deriving DecidableEq

/-- generateRequestBody (postman-params, lines 1201-1234): a switch over the
method name; every recognized case calls the matching generator with its
source default arguments, and the default case substitutes customParams, or
an empty object, instead of failing. -/
def generateRequestBody (α : Type) (P : EdPrimitives) (kp : KeyPair) (isSessionId : Bool)
    (ts : Nat) (method : String) (customParams : Option α) :
    ApiRequest (DispatchedParams α) :=
  { method := method
  , params :=
      if method = "store" then
        .storeReq (getStoreParams P kp isSessionId ts "Hello World!" 86400000 0)
      else if method = "retrieve" then
        .retrieveReq (getRetrieveParams P kp isSessionId ts none 0 100 (-5))
      else if method = "delete" then
        .deleteReq (getDeleteParams P kp isSessionId ["test_hash_1", "test_hash_2"] true)
      else if method = "delete_all" then
        .deleteAllReq (getDeleteAllParams P kp isSessionId ts 0)
      else if method = "get_swarm" then
        .swarmReq (getSwarmParams kp)
      else if method = "get_expiries" then
        .expiriesReq (getExpiriesParams P kp isSessionId ts ["test_hash_1"])
      else if method = "get_stats" then
        .statsReq getStatsParams
      else
        match customParams with
        | some p => .customObj p
        | none => .emptyObj }

/-- C8 counterexample. Building a request for the unrecognized method
bogus_method does not fail with an UnsupportedOperation error: it returns a
request whose params slot is the substituted empty default. -/
theorem generateRequestBody_unknown_method_substitutes_default :
    generateRequestBody Unit testPrimitives testKeyPair false 0 "bogus_method" none
      = { method := "bogus_method", params := DispatchedParams.emptyObj } := by
  rfl

/-- C8 (amended). For every operation kind outside the recognized set
(store, retrieve, delete, delete_all, get_swarm, get_expiries, get_stats),
generateRequestBody does not fail: it echoes the method and substitutes the
caller-supplied custom params, or an empty object when none are given. -/
theorem generateRequestBody_unrecognized_substitutes (α : Type) (P : EdPrimitives)
    (kp : KeyPair) (sid : Bool) (ts : Nat) (method : String) (customParams : Option α)
    (h : method ∉ (["store", "retrieve", "delete", "delete_all", "get_swarm",
      "get_expiries", "get_stats"] : List String)) :
    (generateRequestBody α P kp sid ts method customParams).method = method ∧
    (customParams = none →
      (generateRequestBody α P kp sid ts method customParams).params
        = DispatchedParams.emptyObj) ∧
    (∀ p, customParams = some p →
      (generateRequestBody α P kp sid ts method customParams).params
        = DispatchedParams.customObj p) := by
  simp only [List.mem_cons, List.not_mem_nil, or_false, not_or] at h
  obtain ⟨h1, h2, h3, h4, h5, h6, h7⟩ := h
  refine ⟨rfl, fun hc => ?_, fun p hc => ?_⟩ <;>
    subst hc <;>
    simp [generateRequestBody, h1, h2, h3, h4, h5, h6, h7]

/-- C8 witness: the substitution behaviour applied to the unrecognized
method other_method carrying the custom value 5. -/
theorem generateRequestBody_unrecognized_substitutes_witness :
    (generateRequestBody Nat testPrimitives testKeyPair false 0 "other_method"
      (some 5)).params = DispatchedParams.customObj 5 :=
  (generateRequestBody_unrecognized_substitutes Nat testPrimitives testKeyPair false 0
    "other_method" (some 5) (by decide)).2.2 5 rfl

/-- generateSubaccountDelegation (postman-params, lines 934-946): decode the
target hex key, build the blinded token with it, then owner-sign the raw
token bytes via signSubaccountToken; none models a hex.decode or
Uint8Array.set throw anywhere in the chain. Source defaults: permissions 1,
network tag 5. -/
def generateSubaccountDelegation (P : EdPrimitives) (owner : KeyPair)
    (targetPubkeyHex : String) (permissions netPfx : Nat) : Option (String × String) :=
  (hexDecode targetPubkeyHex).bind fun targetPubkey =>
    (generateBlindedSubaccountToken targetPubkey permissions netPfx).bind fun result =>
      (signSubaccountToken P owner result.1).map fun sig => (result.1, sig)

/-- getRetrieveParamsWithSubaccount (postman-params, lines 991-1018): the
delegate key pair signs the retrieve canonical message (unless the namespace
is -10); the owner-produced token and token signature ride along verbatim;
the pubkey is always the owner 00-tagged key. -/
def getRetrieveParamsWithSubaccount (P : EdPrimitives) (owner : KeyPair)
    (lastHash : Option String) (ns : Int) (maxCount maxSize : Int)
    (subaccountToken subaccountSignature : String) (subaccountKp : KeyPair)
    (ts : Nat) : ApiRequest RetrieveParams :=
  { method := "retrieve"
  , params :=
    { pubkey := getPublicKey owner
    , ns := ns
    , last_hash := lastHash
    , max_count := maxCount
    , max_size := maxSize
    , timestamp := ts
    , signature := if ns = -10 then none else some (signRetrieve P subaccountKp ns ts)
    , pubkey_ed25519 := none
    , subaccount := some subaccountToken
    , subaccount_sig := some subaccountSignature } }

/-- UTF-8 encoding distributes over string append. -/
theorem utf8Encode_append (s t : String) :
    utf8Encode (s ++ t) = utf8Encode s ++ utf8Encode t := by
  simp [utf8Encode, String.data_append]

/-- The third byte of every retrieve canonical message is the letter t. -/
theorem utf8_retrieveMessage_byte2 (ns : Int) (ts : Nat) :
    (utf8Encode (retrieveMessage ns ts))[2]? = some 116 := by
  rw [retrieveMessage, utf8Encode_append, utf8Encode_append]
  rw [List.append_assoc, List.getElem?_append_left (by decide)]
  rfl

/-- C3. Along the delegation chain for a retrieve request, the delegate key
signs the operation canonical message itself while the owner signature
attached as subaccount_sig covers exactly the raw 36 token bytes — which are
never the operation message bytes, since a token has a zero reserved byte at
index 2 where the message has the letter t. -/
theorem delegated_request_signature_separation (P : EdPrimitives)
    (owner delegate : KeyPair) (targetHex : String) (perm netPfx : Nat)
    (lastHash : Option String) (ns : Int) (maxCount maxSize : Int) (ts : Nat)
    (target : List Nat)
    (hdec : hexDecode targetHex = some target) (hlen : target.length = 32)
    (hns : ns ≠ -10) :
    ∃ token sig tokenBytes,
      generateSubaccountDelegation P owner targetHex perm netPfx = some (token, sig) ∧
      hexDecode token = some tokenBytes ∧
      tokenBytes.length = 36 ∧
      sig = P.b64encode (P.sign owner.secretKey tokenBytes) ∧
      tokenBytes ≠ utf8Encode (retrieveMessage ns ts) ∧
      (getRetrieveParamsWithSubaccount P owner lastHash ns maxCount maxSize token sig
        delegate ts).params.signature
        = some (P.b64encode (P.sign delegate.secretKey (utf8Encode (retrieveMessage ns ts)))) ∧
      (getRetrieveParamsWithSubaccount P owner lastHash ns maxCount maxSize token sig
        delegate ts).params.subaccount = some token ∧
      (getRetrieveParamsWithSubaccount P owner lastHash ns maxCount maxSize token sig
        delegate ts).params.subaccount_sig = some sig := by
  have htok : generateBlindedSubaccountToken target perm netPfx
      = some (hexEncode ([netPfx % 256, perm % 256, 0, 0] ++ target), target) := by
    rw [generateBlindedSubaccountToken, if_pos (by omega)]
    simp [hlen]
  have hbytes : ∀ b ∈ [netPfx % 256, perm % 256, 0, 0] ++ target, b < 256 := by
    intro b hb
    rcases List.mem_append.mp hb with hb | hb
    · simp only [List.mem_cons, List.not_mem_nil, or_false] at hb
      rcases hb with h1 | h1 | h1 | h1 <;> subst h1 <;>
        first | exact Nat.mod_lt _ (by omega) | omega
    · exact hexDecode_bytes_lt targetHex target hdec b hb
  have hround : hexDecode (hexEncode ([netPfx % 256, perm % 256, 0, 0] ++ target))
      = some ([netPfx % 256, perm % 256, 0, 0] ++ target) :=
    hexDecode_hexEncode _ hbytes
  refine ⟨hexEncode ([netPfx % 256, perm % 256, 0, 0] ++ target),
    P.b64encode (P.sign owner.secretKey ([netPfx % 256, perm % 256, 0, 0] ++ target)),
    [netPfx % 256, perm % 256, 0, 0] ++ target,
    ?_, hround, by simp [hlen], rfl, ?_, ?_, rfl, rfl⟩
  · rw [generateSubaccountDelegation, hdec]
    simp only [Option.some_bind, htok, signSubaccountToken, hround]
    rfl
  · intro h
    have h2 := utf8_retrieveMessage_byte2 ns ts
    rw [← h] at h2
    simp at h2
  · rw [getRetrieveParamsWithSubaccount]
    simp only [if_neg hns]
    rfl

/-- C3 witness: the separation theorem evaluated with the stand-in
primitives, the concrete owner and delegate key pairs, the 64-hex-character
target key 000102...1F, permissions 1, network tag 0, namespace 0 and
timestamp 1. -/
theorem delegated_request_signature_separation_witness :
    ∃ token sig tokenBytes,
      generateSubaccountDelegation testPrimitives testKeyPair
        (hexEncode (List.range 32)) 1 0 = some (token, sig) ∧
      hexDecode token = some tokenBytes ∧
      tokenBytes.length = 36 ∧
      sig = testPrimitives.b64encode (testPrimitives.sign testKeyPair.secretKey tokenBytes) ∧
      tokenBytes ≠ utf8Encode (retrieveMessage 0 1) ∧
      (getRetrieveParamsWithSubaccount testPrimitives testKeyPair none 0 100 (-5) token sig
        testDelegatePair 1).params.signature
        = some (testPrimitives.b64encode (testPrimitives.sign testDelegatePair.secretKey
            (utf8Encode (retrieveMessage 0 1)))) ∧
      (getRetrieveParamsWithSubaccount testPrimitives testKeyPair none 0 100 (-5) token sig
        testDelegatePair 1).params.subaccount = some token ∧
      (getRetrieveParamsWithSubaccount testPrimitives testKeyPair none 0 100 (-5) token sig
        testDelegatePair 1).params.subaccount_sig = some sig :=
  delegated_request_signature_separation testPrimitives testKeyPair testDelegatePair
    (hexEncode (List.range 32)) 1 0 none 0 100 (-5) 1 (List.range 32)
    (hexDecode_hexEncode (List.range 32) (by decide)) (by decide) (by decide)
